import Mathlib

/-!
Verification of the shader reflection and pipeline-compatibility layer of the
IteratedFunctions repository (src/src/ifs/IFSController.cpp and the shader
header).  The C++ functions are shallowly embedded as Lean definitions; the
external Slang compiler and Vulkan driver are modelled by explicit environment
records describing the data those APIs hand to the code under verification.
-/

namespace IFS

/-- Vulkan pixel formats reachable from `to_vk_format` / `format_size`
(`vk::Format` values used by the reflection layer).  `otherFormat` stands for
every remaining `vk::Format` enumerator, which `format_size` treats via its
`default` branch. -/
inductive VkFormat where
  | r32Sfloat
  | r32g32Sfloat
  | r32g32b32Sfloat
  | r32g32b32a32Sfloat
  | r32Sint
  | r32g32Sint
  | r32g32b32Sint
  | r32g32b32a32Sint
  | r32Uint
  | r32g32Uint
  | r32g32b32Uint
  | r32g32b32a32Uint
  | otherFormat (code : Nat)
  deriving DecidableEq

/-- `StageVariable` from the shader header: one interface slot crossing a
pipeline stage boundary. -/
structure StageVariable where
  name : String
  location : Nat
  format : VkFormat
  deriving DecidableEq

/-- Slang scalar types relevant to `to_vk_format`; `otherScalar` stands for
every other `slang::TypeReflection::ScalarType` enumerator. -/
inductive ScalarType where
  | float32
  | int32
  | uint32
  | otherScalar (code : Nat)
  deriving DecidableEq

/-- The part of `slang::TypeReflection` consumed by `to_vk_format`:
`getScalarType()` and `getElementCount()`. -/
structure TypeReflection where
  scalar : ScalarType
  element_count : Nat
  deriving DecidableEq

/-- `to_vk_format`: maps a Slang scalar/vector type to a Vulkan format.
Float32/Int32/UInt32 with 1-4 components map to the corresponding 32-bit
formats; a zero element count is treated as one component; everything else
falls through to `eR32G32B32A32Sfloat` with a logged warning. -/
def to_vk_format (t : TypeReflection) : VkFormat :=
  let count := if t.element_count = 0 then 1 else t.element_count
  match t.scalar, count with
  | .float32, 1 => .r32Sfloat
  | .float32, 2 => .r32g32Sfloat
  | .float32, 3 => .r32g32b32Sfloat
  | .float32, 4 => .r32g32b32a32Sfloat
  | .int32, 1 => .r32Sint
  | .int32, 2 => .r32g32Sint
  | .int32, 3 => .r32g32b32Sint
  | .int32, 4 => .r32g32b32a32Sint
  | .uint32, 1 => .r32Uint
  | .uint32, 2 => .r32g32Uint
  | .uint32, 3 => .r32g32b32Uint
  | .uint32, 4 => .r32g32b32a32Uint
  | _, _ => .r32g32b32a32Sfloat

/-- `format_size`: byte size of a vertex attribute format; 4/8/12/16 bytes for
the 1/2/3/4-component 32-bit formats and 16 for anything else (the `default`
branch of the C++ switch). -/
def format_size (format : VkFormat) : Nat :=
  match format with
  | .r32Sfloat | .r32Sint | .r32Uint => 4
  | .r32g32Sfloat | .r32g32Sint | .r32g32Uint => 8
  | .r32g32b32Sfloat | .r32g32b32Sint | .r32g32b32Uint => 12
  | .r32g32b32a32Sfloat | .r32g32b32a32Sint | .r32g32b32a32Uint => 16
  | .otherFormat _ => 16

/-- The `std::map<uint32_t, const StageVariable*> producer_map` built by
`interfaces_match`: successive insertions overwrite, so the entry at a
location is the last producer output with that location. -/
def build_producer_map (producer : List StageVariable) : Nat → Option StageVariable :=
  producer.foldl (fun m v loc => if loc = v.location then some v else m loc) (fun _ => none)

/-- One iteration of the consumer loop of `interfaces_match`: a consumer input
passes when the producer map has an entry at its location with the same
format. -/
def consumer_input_ok (pmap : Nat → Option StageVariable) (input : StageVariable) : Bool :=
  match pmap input.location with
  | none => false
  | some v => decide (v.format = input.format)

/-- The consumer loop of `interfaces_match`: `valid` starts `true`, each
mismatching input sets it to `false`, and the loop never resets it, so the
final value is the conjunction of the per-input checks over the whole list. -/
def interfaces_check (pmap : Nat → Option StageVariable) : List StageVariable → Bool
  | [] => true
  | input :: rest => consumer_input_ok pmap input && interfaces_check pmap rest

/-- `interfaces_match` from IFSController.cpp: build the producer location map,
then check every consumer input against it. -/
def interfaces_match (producer consumer : List StageVariable) : Bool :=
  interfaces_check (build_producer_map producer) consumer

/-- Specification-side lookup: the last producer output declared at a given
location, if any. -/
def last_output_at (producer : List StageVariable) (loc : Nat) : Option StageVariable :=
  (producer.filter (fun v => v.location = loc)).getLast?

theorem build_producer_map_eq_last (producer : List StageVariable) (loc : Nat) :
    build_producer_map producer loc = last_output_at producer loc := by
  induction producer using List.reverseRecOn with
  | nil => rfl
  | append_singleton l v ih =>
    unfold build_producer_map last_output_at at *
    rw [List.foldl_append, List.filter_append]
    by_cases hv : v.location = loc
    · simp only [List.foldl_cons, List.foldl_nil, List.filter_cons, List.filter_nil, hv]
      simp [List.getLast?_concat]
    · have hv' : ¬(loc = v.location) := fun h => hv h.symm
      simp only [List.foldl_cons, List.foldl_nil, List.filter_cons, List.filter_nil, hv]
      simpa [hv, hv'] using ih

-- ============================================================================
-- Stage detail model (header structs + matches methods from IFSController.cpp)
-- ============================================================================

/-- `VertexAttribute` from the shader header. -/
structure VertexAttribute where
  name : String
  location : Nat
  binding : Nat
  offset : Nat
  format : VkFormat
  deriving DecidableEq

/-- `VertexBinding` from the shader header. -/
structure VertexBinding where
  binding : Nat
  stride : Nat
  name : String
  deriving DecidableEq

/-- `vk::PrimitiveTopology` values used by `GeometryDetails`. -/
inductive PrimitiveTopology where
  | triangleList
  | triangleStrip
  | otherTopology (code : Nat)
  deriving DecidableEq

/-- `VertexDetails` from the shader header. -/
structure VertexDetails where
  inputs : List VertexAttribute
  bindings : List VertexBinding
  outputs : List StageVariable
  deriving DecidableEq

/-- `TessellationControlDetails` from the shader header. -/
structure TessellationControlDetails where
  inputs : List StageVariable
  outputs : List StageVariable
  output_vertices : Nat
  deriving DecidableEq

/-- Tessellation domain kinds (`TessellationEvaluationDetails::Domain`). -/
inductive TessDomain where
  | triangles
  | quads
  | isolines
  deriving DecidableEq

/-- Tessellation spacing kinds (`TessellationEvaluationDetails::Spacing`). -/
inductive TessSpacing where
  | equal
  | fractionalEven
  | fractionalOdd
  deriving DecidableEq

/-- `TessellationEvaluationDetails` from the shader header. -/
structure TessellationEvaluationDetails where
  inputs : List StageVariable
  outputs : List StageVariable
  domain : TessDomain
  spacing : TessSpacing
  clockwise : Bool
  deriving DecidableEq

/-- `GeometryDetails` from the shader header. -/
structure GeometryDetails where
  inputs : List StageVariable
  outputs : List StageVariable
  input_primitive : PrimitiveTopology
  output_primitive : PrimitiveTopology
  max_output_vertices : Nat
  invocations : Nat
  deriving DecidableEq

/-- `FragmentDetails` from the shader header. -/
structure FragmentDetails where
  inputs : List StageVariable
  outputs : List StageVariable
  writes_depth : Bool
  deriving DecidableEq

/-- `ComputeDetails` from the shader header. -/
structure ComputeDetails where
  local_size_x : Nat
  local_size_y : Nat
  local_size_z : Nat
  deriving DecidableEq

/-- `ShaderDetails`, the `std::variant` over the six stage detail structs. -/
inductive ShaderDetails where
  | vertex (d : VertexDetails)
  | tessControl (d : TessellationControlDetails)
  | tessEval (d : TessellationEvaluationDetails)
  | geometry (d : GeometryDetails)
  | fragment (d : FragmentDetails)
  | compute (d : ComputeDetails)
  deriving DecidableEq

/-- `VertexDetails::matches`: vertex connects to tessellation control,
geometry, or fragment, delegating to interface matching; every other target
stage is rejected. -/
def VertexDetails.matchesNext (self : VertexDetails) (next : ShaderDetails) : Bool :=
  match next with
  | .tessControl tc => interfaces_match self.outputs tc.inputs
  | .geometry g => interfaces_match self.outputs g.inputs
  | .fragment f => interfaces_match self.outputs f.inputs
  | _ => false

/-- `TessellationControlDetails::matches`: only tessellation evaluation is a
legal successor. -/
def TessellationControlDetails.matchesNext (self : TessellationControlDetails)
    (next : ShaderDetails) : Bool :=
  match next with
  | .tessEval te => interfaces_match self.outputs te.inputs
  | _ => false

/-- `TessellationEvaluationDetails::matches`: geometry or fragment are the
legal successors. -/
def TessellationEvaluationDetails.matchesNext (self : TessellationEvaluationDetails)
    (next : ShaderDetails) : Bool :=
  match next with
  | .geometry g => interfaces_match self.outputs g.inputs
  | .fragment f => interfaces_match self.outputs f.inputs
  | _ => false

/-- `GeometryDetails::matches`: only fragment is a legal successor. -/
def GeometryDetails.matchesNext (self : GeometryDetails) (next : ShaderDetails) : Bool :=
  match next with
  | .fragment f => interfaces_match self.outputs f.inputs
  | _ => false

/-- `FragmentDetails::matches`: fragment is the final stage, always false. -/
def FragmentDetails.matchesNext (_self : FragmentDetails) (_next : ShaderDetails) : Bool :=
  false

/-- `ComputeDetails::matches`: compute is standalone, always false. -/
def ComputeDetails.matchesNext (_self : ComputeDetails) (_next : ShaderDetails) : Bool :=
  false

/-- `ShaderDetails::matches`: `std::visit` dispatch on the active variant. -/
def ShaderDetails.matchesNext (self next : ShaderDetails) : Bool :=
  match self with
  | .vertex d => d.matchesNext next
  | .tessControl d => d.matchesNext next
  | .tessEval d => d.matchesNext next
  | .geometry d => d.matchesNext next
  | .fragment d => d.matchesNext next
  | .compute d => d.matchesNext next

/-- The six stage kinds, used to state the legal-transition table. -/
inductive StageKind where
  | vertex
  | tessControl
  | tessEval
  | geometry
  | fragment
  | compute
  deriving DecidableEq

/-- Kind of the active variant of a `ShaderDetails`. -/
def ShaderDetails.kind : ShaderDetails → StageKind
  | .vertex _ => .vertex
  | .tessControl _ => .tessControl
  | .tessEval _ => .tessEval
  | .geometry _ => .geometry
  | .fragment _ => .fragment
  | .compute _ => .compute

/-- The legal-transition set of the pipeline state machine, as stated in the
specification: Vertex to TessControl/Geometry/Fragment, TessControl to
TessEval only, TessEval to Geometry/Fragment, Geometry to Fragment; Fragment
and Compute have no legal successor. -/
def legal_transition : StageKind → StageKind → Bool
  | .vertex, .tessControl => true
  | .vertex, .geometry => true
  | .vertex, .fragment => true
  | .tessControl, .tessEval => true
  | .tessEval, .geometry => true
  | .tessEval, .fragment => true
  | .geometry, .fragment => true
  | _, _ => false

/-- Producer-side interface list of a stage (its `outputs`; compute has
none). -/
def ShaderDetails.producer_outputs : ShaderDetails → List StageVariable
  | .vertex d => d.outputs
  | .tessControl d => d.outputs
  | .tessEval d => d.outputs
  | .geometry d => d.outputs
  | .fragment d => d.outputs
  | .compute _ => []

/-- Consumer-side interface list of a stage (its `inputs` as stage variables;
vertex consumes vertex attributes rather than stage variables and compute has
none — both are never legal consumers, so their list is empty). -/
def ShaderDetails.consumer_inputs : ShaderDetails → List StageVariable
  | .vertex _ => []
  | .tessControl d => d.inputs
  | .tessEval d => d.inputs
  | .geometry d => d.inputs
  | .fragment d => d.inputs
  | .compute _ => []

/-- C1: `matches(self, next)` returns the interface-matching result exactly on
the legal-transition set — Vertex to TessControl/Geometry/Fragment,
TessControl to TessEval only, TessEval to Geometry/Fragment, Geometry to
Fragment — and returns false for every pair outside that set (in particular
whenever self is Fragment or Compute), independent of the interfaces. -/
theorem C1_matches_is_gated_interface_match (self next : ShaderDetails) :
    ShaderDetails.matchesNext self next =
      (legal_transition self.kind next.kind &&
        interfaces_match self.producer_outputs next.consumer_inputs) := by
  cases self <;> cases next <;> rfl

theorem consumer_input_ok_iff (pmap : Nat → Option StageVariable) (input : StageVariable) :
    consumer_input_ok pmap input = true ↔
      ∃ v, pmap input.location = some v ∧ v.format = input.format := by
  unfold consumer_input_ok
  cases h : pmap input.location with
  | none => simp [h]
  | some v =>
    simp only [decide_eq_true_eq]
    constructor
    · intro hf
      exact ⟨v, rfl, hf⟩
    · rintro ⟨w, hw, hf⟩
      cases hw
      exact hf

theorem interfaces_check_iff (pmap : Nat → Option StageVariable) (consumer : List StageVariable) :
    interfaces_check pmap consumer = true ↔
      ∀ input ∈ consumer, consumer_input_ok pmap input = true := by
  induction consumer with
  | nil => simp [interfaces_check]
  | cons input rest ih =>
    simp [interfaces_check, Bool.and_eq_true, ih]

/-- Producer output at location 0 with format `R32Sfloat`; shadowed in the
producer map by `dupB` below. -/
def dupA : StageVariable := { name := "a", location := 0, format := .r32Sfloat }

/-- Second producer output at the same location 0 with a different format; the
`std::map` assignment makes it the surviving entry. -/
def dupB : StageVariable := { name := "b", location := 0, format := .r32g32Sfloat }

/-- Consumer input at location 0 expecting `R32Sfloat`, which `dupA` provides
but `dupB` does not. -/
def dupX : StageVariable := { name := "x", location := 0, format := .r32Sfloat }

/-- C2 counterexample: the sole consumer input `dupX` does have a producer
output (`dupA`) at its location with its exact format, yet `interfaces_match`
returns false, because the producer map keeps only the last output per
location (`dupB`).  So "true iff every consumer input has a producer output at
the same location with the same format" fails in the right-to-left
direction. -/
theorem C2_counterexample_duplicate_location :
    interfaces_match [dupA, dupB] [dupX] = false ∧
      dupX ∈ [dupX] ∧ dupA ∈ [dupA, dupB] ∧
      dupA.location = dupX.location ∧ dupA.format = dupX.format := by
  decide

/-- C2 (amended): `interfaces_match` returns true if and only if every
consumer input finds, at its location, the LAST producer output declared at
that location with the same format (the producer map keeps the last output
per location); extra producer outputs at unconsumed locations are irrelevant,
and the result is the conjunction of this check over the full consumer
list. -/
theorem C2_interfaces_match_iff_last_output (producer consumer : List StageVariable) :
    interfaces_match producer consumer = true ↔
      ∀ input ∈ consumer, ∃ v,
        last_output_at producer input.location = some v ∧ v.format = input.format := by
  unfold interfaces_match
  rw [interfaces_check_iff]
  constructor
  · intro h input hmem
    have := (consumer_input_ok_iff _ input).mp (h input hmem)
    rwa [build_producer_map_eq_last] at this
  · intro h input hmem
    refine (consumer_input_ok_iff _ input).mpr ?_
    rw [build_producer_map_eq_last]
    exact h input hmem

-- ============================================================================
-- Type layout size extraction (extract_size)
-- ============================================================================

/-- `slang::TypeLayoutReflection` as consumed by `extract_size`: a declared
size (`getSize()`) plus the result of `getElementTypeLayout()`, which is
either null (`leaf`), the layout object itself (`selfLoop`, the
self-referential case the code guards with `element_type != type_layout`), or
a distinct layout one nesting level down (`wrap`). -/
inductive TypeLayout where
  | leaf (size : Nat)
  | selfLoop (size : Nat)
  | wrap (size : Nat) (element : TypeLayout)
  deriving DecidableEq

/-- `getSize()` of a type layout. -/
def TypeLayout.declared_size : TypeLayout → Nat
  | .leaf s => s
  | .selfLoop s => s
  | .wrap s _ => s

/-- `extract_size`: return the declared size if nonzero; otherwise recurse
into the element layout, but only when it exists and is distinct from the
layout itself; otherwise 0. -/
def extract_size : TypeLayout → Nat
  | .leaf s => if s > 0 then s else 0
  | .selfLoop s => if s > 0 then s else 0
  | .wrap s element => if s > 0 then s else extract_size element

/-- C7: `extract_size` is a total terminating function on every type layout,
including a self-referential layout whose element type is itself: it returns
the declared size when nonzero; when the declared size is zero it recurses
into the element layout exactly when that element exists and is distinct from
the layout itself; and in the remaining cases (no element, or the element is
the layout itself) it returns 0. -/
theorem C7_extract_size_total (t : TypeLayout) :
    (0 < t.declared_size → extract_size t = t.declared_size) ∧
      (∀ c, t = TypeLayout.wrap 0 c → extract_size t = extract_size c) ∧
      (∀ s, t = TypeLayout.leaf s ∨ t = TypeLayout.selfLoop s → s = 0 →
        extract_size t = 0) := by
  refine ⟨?_, ?_, ?_⟩
  · intro hpos
    cases t with
    | leaf s => simp only [extract_size, TypeLayout.declared_size] at *; simp [hpos]
    | selfLoop s => simp only [extract_size, TypeLayout.declared_size] at *; simp [hpos]
    | wrap s c => simp only [extract_size, TypeLayout.declared_size] at *; simp [hpos]
  · rintro c rfl
    simp [extract_size]
  · rintro s (rfl | rfl) rfl <;> simp [extract_size]

/-- C7 witness: at the concrete self-referential layout of declared size 0
(`getElementTypeLayout()` returning the layout itself), `extract_size`
terminates with 0. -/
theorem C7_extract_size_total_witness : extract_size (TypeLayout.selfLoop 0) = 0 :=
  (C7_extract_size_total (TypeLayout.selfLoop 0)).2.2 0 (Or.inr rfl) rfl

-- ============================================================================
-- Stage variable extraction (extract_variables / extract_inputs / extract_outputs)
-- ============================================================================

/-- One struct field as seen through `slang::VariableLayoutReflection`:
`getName()`, `getSemanticName()` (null pointer modelled as `none`),
`getBindingIndex()` and the scalar/vector type of the field. -/
structure FieldReflection where
  name : String
  semantic : Option String
  binding_index : Nat
  field_type : TypeReflection
  deriving DecidableEq

/-- The `StageVariable` built from a field by `extract_variables`. -/
def field_to_variable (f : FieldReflection) : StageVariable :=
  { name := f.name, location := f.binding_index, format := to_vk_format f.field_type }

/-- `std::string_view::starts_with` over the characters of the strings. -/
def string_starts_with (s p : String) : Bool :=
  List.isPrefixOf p.data s.data

/-- The system-value test of `extract_variables`: a non-null semantic name
starting with the reserved prefix. -/
def is_system_value (f : FieldReflection) : Bool :=
  match f.semantic with
  | some s => string_starts_with s "SV_"
  | none => false

/-- `extract_variables`: walk the struct fields in order, skipping system
values, and emit one `StageVariable` per remaining field. -/
def extract_variables : List FieldReflection → List StageVariable
  | [] => []
  | f :: rest =>
    if is_system_value f then extract_variables rest
    else field_to_variable f :: extract_variables rest

/-- A `slang::TypeLayoutReflection` as consumed by the interface-variable
extractors: a struct with fields, an output stream wrapping an element, some
other container wrapping an element (arrays, patches), or a leaf with no
element layout. -/
inductive VarLayout where
  | structLayout (fields : List FieldReflection)
  | streamLayout (element : VarLayout)
  | wrapLayout (element : VarLayout)
  | scalarLayout
  deriving DecidableEq

/-- `unwrap_to_struct`: recursively unwrap container layouts until a struct is
found; null if none is. -/
def unwrap_to_struct : VarLayout → Option (List FieldReflection)
  | .structLayout fields => some fields
  | .streamLayout element => unwrap_to_struct element
  | .wrapLayout element => unwrap_to_struct element
  | .scalarLayout => none

/-- `is_output_stream`: the layout kind is `OutputStream`. -/
def is_output_stream : VarLayout → Bool
  | .streamLayout _ => true
  | _ => false

/-- One entry-point parameter: its name, the name of its type (null or empty
for anonymous structs) and its type layout. -/
structure EntryParam where
  name : String
  type_name : Option String
  layout : VarLayout
  deriving DecidableEq

/-- The reflection data of an entry point used by the extractors: its
parameters and its result variable layout (`getResultVarLayout`, null when the
entry point returns nothing). -/
structure EntryPointReflection where
  params : List EntryParam
  result : Option VarLayout
  deriving DecidableEq

/-- `extract_inputs`: for every non-stream parameter that unwraps to a struct,
emit its extracted variables, in parameter order. -/
def extract_inputs : List EntryParam → List StageVariable
  | [] => []
  | p :: rest =>
    if is_output_stream p.layout then extract_inputs rest
    else
      match unwrap_to_struct p.layout with
      | some fields => extract_variables fields ++ extract_inputs rest
      | none => extract_inputs rest

/-- The stream-parameter loop of `extract_outputs` (geometry shaders). -/
def stream_outputs : List EntryParam → List StageVariable
  | [] => []
  | p :: rest =>
    if is_output_stream p.layout then
      match unwrap_to_struct p.layout with
      | some fields => extract_variables fields ++ stream_outputs rest
      | none => stream_outputs rest
    else stream_outputs rest

/-- `extract_outputs`: variables of the entry point's return-value struct,
followed by the variables of every output-stream parameter. -/
def extract_outputs (entry : EntryPointReflection) : List StageVariable :=
  (match entry.result with
   | some r =>
     match unwrap_to_struct r with
     | some fields => extract_variables fields
     | none => []
   | none => []) ++ stream_outputs entry.params

/-- The struct fields a layout unwraps to, or no fields at all. -/
def struct_fields (layout : VarLayout) : List FieldReflection :=
  (unwrap_to_struct layout).getD []

/-- The fields of the entry point's result struct, if any. -/
def result_fields (entry : EntryPointReflection) : List FieldReflection :=
  match entry.result with
  | some r => struct_fields r
  | none => []

theorem extract_variables_eq_filter_map (fields : List FieldReflection) :
    extract_variables fields =
      (fields.filter (fun f => is_system_value f = false)).map field_to_variable := by
  induction fields with
  | nil => rfl
  | cons f rest ih =>
    by_cases h : is_system_value f
    · simp [extract_variables, h, List.filter_cons, ih]
    · simp [extract_variables, h, List.filter_cons, ih]

theorem extract_inputs_eq (params : List EntryParam) :
    extract_inputs params =
      ((params.filter (fun p => is_output_stream p.layout = false)).map
        (fun p => extract_variables (struct_fields p.layout))).flatten := by
  induction params with
  | nil => rfl
  | cons p rest ih =>
    by_cases h : is_output_stream p.layout
    · simp only [extract_inputs, h, if_pos]
      simp [List.filter_cons, h, ih]
    · simp only [extract_inputs, h]
      cases hu : unwrap_to_struct p.layout with
      | some fields =>
        simp [List.filter_cons, h, ih, struct_fields, hu]
      | none =>
        simp [List.filter_cons, h, ih, struct_fields, hu, extract_variables]

theorem stream_outputs_eq (params : List EntryParam) :
    stream_outputs params =
      ((params.filter (fun p => is_output_stream p.layout = true)).map
        (fun p => extract_variables (struct_fields p.layout))).flatten := by
  induction params with
  | nil => rfl
  | cons p rest ih =>
    by_cases h : is_output_stream p.layout
    · simp only [stream_outputs, h, if_pos]
      cases hu : unwrap_to_struct p.layout with
      | some fields =>
        simp [List.filter_cons, h, ih, struct_fields, hu]
      | none =>
        simp [List.filter_cons, h, ih, struct_fields, hu, extract_variables]
    · simp only [stream_outputs, h]
      simp [List.filter_cons, h, ih]

/-- C8: every extracted input or output list is exactly the in-order image of
the non-system-value fields: `extract_variables` drops precisely the fields
whose semantic name starts with the reserved "SV_" prefix, wherever they sit
in the struct, and keeps all other fields in declaration order; and every
input/output list the extractors produce is a concatenation of such per-struct
lists, so no system-value field ever appears in any of them. -/
theorem C8_system_values_filtered (fields : List FieldReflection)
    (params : List EntryParam) (entry : EntryPointReflection) :
    extract_variables fields =
      (fields.filter (fun f => is_system_value f = false)).map field_to_variable ∧
    extract_inputs params =
      ((params.filter (fun p => is_output_stream p.layout = false)).map
        (fun p => (((struct_fields p.layout).filter
          (fun f => is_system_value f = false)).map field_to_variable))).flatten ∧
    extract_outputs entry =
      ((result_fields entry).filter (fun f => is_system_value f = false)).map
          field_to_variable ++
        ((entry.params.filter (fun p => is_output_stream p.layout = true)).map
          (fun p => (((struct_fields p.layout).filter
            (fun f => is_system_value f = false)).map field_to_variable))).flatten := by
  refine ⟨extract_variables_eq_filter_map fields, ?_, ?_⟩
  · rw [extract_inputs_eq]
    congr 1
    refine List.map_congr_left ?_
    intro p _
    exact extract_variables_eq_filter_map _
  · unfold extract_outputs
    congr 1
    · unfold result_fields
      cases hr : entry.result with
      | none => rfl
      | some r =>
        cases hu : unwrap_to_struct r with
        | some fs => simp [struct_fields, hu, extract_variables_eq_filter_map]
        | none => simp [struct_fields, hu]
    · rw [stream_outputs_eq]
      congr 1
      refine List.map_congr_left ?_
      intro p _
      exact extract_variables_eq_filter_map _

-- ============================================================================
-- Vertex input extraction (extract_vertex_inputs)
-- ============================================================================

/-- The inner field loop of `extract_vertex_inputs`: walk the struct fields in
order, emitting one `VertexAttribute` per field at the running byte offset and
advancing the offset by `format_size`; returns the attributes and the final
offset, which becomes the binding's stride. -/
def vertex_fields_walk (binding offset : Nat) :
    List FieldReflection → List VertexAttribute × Nat
  | [] => ([], offset)
  | f :: rest =>
    let format := to_vk_format f.field_type
    let size := format_size format
    let res := vertex_fields_walk binding (offset + size) rest
    ({ name := f.name, location := f.binding_index, binding := binding,
       offset := offset, format := format } :: res.1, res.2)

/-- The parameter loop of `extract_vertex_inputs`, carrying the running
parameter index (which is also the binding index): non-struct parameters are
skipped (scalar builtins such as `SV_VertexID`), a struct parameter without a
resolvable type name is a fatal reflection error (`throw`), and every named
struct parameter contributes its attributes and one binding. -/
def extract_vertex_inputs_from (idx : Nat) :
    List EntryParam → Except String (List VertexAttribute × List VertexBinding)
  | [] => .ok ([], [])
  | p :: rest =>
    match p.layout with
    | .structLayout fields =>
      match p.type_name with
      | none => .error "Vertex input struct has no name"
      | some nm =>
        if nm = "" then .error "Vertex input struct has no name"
        else
          let walked := vertex_fields_walk idx 0 fields
          match extract_vertex_inputs_from (idx + 1) rest with
          | .error e => .error e
          | .ok (attrs, binds) =>
            .ok (walked.1 ++ attrs,
                 { binding := idx, stride := walked.2, name := nm } :: binds)
    | _ => extract_vertex_inputs_from (idx + 1) rest

/-- `extract_vertex_inputs` from IFSController.cpp, starting at parameter
index 0. -/
def extract_vertex_inputs (params : List EntryParam) :
    Except String (List VertexAttribute × List VertexBinding) :=
  extract_vertex_inputs_from 0 params

/-- Byte size of a field as a vertex attribute. -/
def vertex_field_size (f : FieldReflection) : Nat :=
  format_size (to_vk_format f.field_type)

/-- The struct fields of a vertex input parameter (empty for non-struct
parameters). -/
def vertex_param_fields (p : EntryParam) : List FieldReflection :=
  match p.layout with
  | .structLayout fields => fields
  | _ => []

/-- Specification-side attribute list of one binding: each field paired with
the sum of the sizes of the fields before it, in declaration order. -/
def spec_vertex_attrs (binding : Nat) (fields : List FieldReflection) :
    List VertexAttribute :=
  (fields.zip (List.scanl (fun acc f => acc + vertex_field_size f) 0 fields)).map
    (fun q => { name := q.1.name, location := q.1.binding_index, binding := binding,
                offset := q.2, format := to_vk_format q.1.field_type })

/-- Specification-side binding for one parameter: stride is the sum of the
field sizes. -/
def spec_vertex_binding (binding : Nat) (p : EntryParam) : VertexBinding :=
  { binding := binding, stride := ((vertex_param_fields p).map vertex_field_size).sum,
    name := p.type_name.getD "" }

theorem vertex_fields_walk_eq (fields : List FieldReflection) (binding offset : Nat) :
    vertex_fields_walk binding offset fields =
      ((fields.zip (List.scanl (fun acc f => acc + vertex_field_size f) offset fields)).map
        (fun q => { name := q.1.name, location := q.1.binding_index, binding := binding,
                    offset := q.2, format := to_vk_format q.1.field_type }),
       offset + (fields.map vertex_field_size).sum) := by
  induction fields generalizing offset with
  | nil => simp [vertex_fields_walk, List.scanl_nil]
  | cons f rest ih =>
    simp only [vertex_fields_walk]
    rw [show format_size (to_vk_format f.field_type) = vertex_field_size f from rfl]
    rw [ih (offset + vertex_field_size f)]
    simp only [List.scanl_cons, List.singleton_append, List.zip_cons_cons,
      List.map_cons, List.sum_cons]
    refine Prod.ext rfl ?_
    simp only
    omega

/-- Decidable test that a vertex entry-point parameter is a struct with a
resolvable nonempty type name. -/
def vertex_param_named (p : EntryParam) : Bool :=
  (match p.layout with
   | .structLayout _ => true
   | _ => false) &&
  decide (p.type_name.getD "" ≠ "")

/-- C6 hypothesis: every entry-point parameter is a struct with a resolvable
nonempty type name. -/
def all_named_structs (params : List EntryParam) : Prop :=
  ∀ p ∈ params, vertex_param_named p = true

instance (params : List EntryParam) : Decidable (all_named_structs params) :=
  decidable_of_iff (∀ p ∈ params, vertex_param_named p = true) Iff.rfl

theorem extract_vertex_inputs_from_eq (params : List EntryParam) :
    ∀ (idx : Nat), all_named_structs params →
    extract_vertex_inputs_from idx params =
      .ok (((params.enumFrom idx).map
              (fun q => spec_vertex_attrs q.1 (vertex_param_fields q.2))).flatten,
           (params.enumFrom idx).map (fun q => spec_vertex_binding q.1 q.2)) := by
  induction params with
  | nil => intro idx _; rfl
  | cons p rest ih =>
    intro idx h
    have hp := h p (List.mem_cons_self p rest)
    have hrest : all_named_structs rest := fun q hq => h q (List.mem_cons_of_mem p hq)
    unfold vertex_param_named at hp
    cases hlayout : p.layout with
    | structLayout fields =>
      rw [hlayout] at hp
      simp only [Bool.and_eq_true, decide_eq_true_eq] at hp
      cases htn : p.type_name with
      | none =>
        rw [htn] at hp
        simp at hp
      | some nm =>
        have hnm : nm ≠ "" := by
          rw [htn] at hp
          simpa using hp.2
        simp only [extract_vertex_inputs_from, hlayout, htn, if_neg hnm, ih (idx + 1) hrest]
        simp only [List.enumFrom, List.map_cons, List.flatten_cons]
        refine congrArg Except.ok (Prod.ext ?_ ?_)
        · simp only
          congr 1
          rw [vertex_fields_walk_eq]
          simp [spec_vertex_attrs, vertex_param_fields, hlayout]
        · simp only
          congr 1
          rw [vertex_fields_walk_eq]
          simp [spec_vertex_binding, vertex_param_fields, hlayout, htn]
    | streamLayout e => rw [hlayout] at hp; simp at hp
    | wrapLayout e => rw [hlayout] at hp; simp at hp
    | scalarLayout => rw [hlayout] at hp; simp at hp

/-- C6: for a vertex shader whose entry-point parameters are all named
structs, each parameter produces exactly one `VertexBinding` whose stride is
the sum of its fields' format sizes (4/8/12/16 bytes per `format_size`), and
one `VertexAttribute` per field whose offset is the sum of the sizes of the
fields preceding it (a running byte offset starting at 0), in
field-declaration order; the binding index is the parameter index. -/
theorem C6_vertex_inputs_layout (params : List EntryParam)
    (h : all_named_structs params) :
    extract_vertex_inputs params =
      .ok (((params.enumFrom 0).map
              (fun q => spec_vertex_attrs q.1 (vertex_param_fields q.2))).flatten,
           (params.enumFrom 0).map (fun q => spec_vertex_binding q.1 q.2)) :=
  extract_vertex_inputs_from_eq params 0 h

instance {ε α : Type} [DecidableEq ε] [DecidableEq α] : DecidableEq (Except ε α) :=
  fun a b =>
    match a, b with
    | .ok x, .ok y => decidable_of_iff (x = y) (by simp)
    | .error x, .error y => decidable_of_iff (x = y) (by simp)
    | .ok _, .error _ => isFalse (by simp)
    | .error _, .ok _ => isFalse (by simp)

/-- The "PerVertex" example parameter: two `float3` fields. -/
def perVertexParam : EntryParam :=
  { name := "perVertex",
    type_name := some "PerVertex",
    layout := VarLayout.structLayout
      [{ name := "position", semantic := none, binding_index := 0,
         field_type := { scalar := .float32, element_count := 3 } },
       { name := "normal", semantic := none, binding_index := 1,
         field_type := { scalar := .float32, element_count := 3 } }] }

/-- The "PerInstance" example parameter: four `float4` matrix columns. -/
def perInstanceParam : EntryParam :=
  { name := "perInstance",
    type_name := some "PerInstance",
    layout := VarLayout.structLayout
      [{ name := "matrixCol0", semantic := none, binding_index := 2,
         field_type := { scalar := .float32, element_count := 4 } },
       { name := "matrixCol1", semantic := none, binding_index := 3,
         field_type := { scalar := .float32, element_count := 4 } },
       { name := "matrixCol2", semantic := none, binding_index := 4,
         field_type := { scalar := .float32, element_count := 4 } },
       { name := "matrixCol3", semantic := none, binding_index := 5,
         field_type := { scalar := .float32, element_count := 4 } }] }

/-- C6 witness: on the spec's concrete example (PerVertex: vec3 + vec3,
PerInstance: four vec4), the extraction yields two bindings with strides 24
and 64 and six attributes with offsets 0,12 and 0,16,32,48. -/
theorem C6_vertex_inputs_layout_witness :
    all_named_structs [perVertexParam, perInstanceParam] ∧
    extract_vertex_inputs [perVertexParam, perInstanceParam] =
      .ok ([{ name := "position", location := 0, binding := 0, offset := 0,
              format := .r32g32b32Sfloat },
            { name := "normal", location := 1, binding := 0, offset := 12,
              format := .r32g32b32Sfloat },
            { name := "matrixCol0", location := 2, binding := 1, offset := 0,
              format := .r32g32b32a32Sfloat },
            { name := "matrixCol1", location := 3, binding := 1, offset := 16,
              format := .r32g32b32a32Sfloat },
            { name := "matrixCol2", location := 4, binding := 1, offset := 32,
              format := .r32g32b32a32Sfloat },
            { name := "matrixCol3", location := 5, binding := 1, offset := 48,
              format := .r32g32b32a32Sfloat }],
           [{ binding := 0, stride := 24, name := "PerVertex" },
            { binding := 1, stride := 64, name := "PerInstance" }]) := by
  constructor
  · decide
  · have h := C6_vertex_inputs_layout [perVertexParam, perInstanceParam] (by decide)
    rw [h]
    decide

-- ============================================================================
-- Descriptor binding extraction (extract_bindings / extract_descriptors /
-- extract_push_constants)
-- ============================================================================

/-- The base part of `slang::BindingType` (the value with `BaseMask`
applied). -/
inductive BaseBindingType where
  | sampler
  | texture
  | constantBuffer
  | typedBuffer
  | rawBuffer
  | combinedTextureSampler
  | inputRenderTarget
  | inlineUniformData
  | accelerationStructure
  | parameterBlock
  | varyingInput
  | varyingOutput
  | pushConstant
  | unknownBinding (code : Nat)
  deriving DecidableEq

/-- A full `slang::BindingType` value: base kind plus the `MutableFlag`
bit. -/
structure SlangBindingType where
  base : BaseBindingType
  isMutable : Bool
  deriving DecidableEq

/-- Vulkan descriptor types reachable from `to_vk_descriptor_type`. -/
inductive VkDescriptorType where
  | sampler
  | sampledImage
  | storageImage
  | uniformBuffer
  | uniformTexelBuffer
  | storageTexelBuffer
  | storageBuffer
  | combinedImageSampler
  | inputAttachment
  | inlineUniformBlock
  | accelerationStructure
  deriving DecidableEq

/-- `to_vk_descriptor_type`: switch on the base binding type, honouring the
mutable flag for textures and typed buffers; every unhandled kind (parameter
blocks, varyings, push constants, unknown values) falls through to
`eUniformBuffer` with a logged warning. -/
def to_vk_descriptor_type (bt : SlangBindingType) : VkDescriptorType :=
  match bt.base with
  | .sampler => .sampler
  | .texture => if bt.isMutable then .storageImage else .sampledImage
  | .constantBuffer => .uniformBuffer
  | .typedBuffer => if bt.isMutable then .storageTexelBuffer else .uniformTexelBuffer
  | .rawBuffer => .storageBuffer
  | .combinedTextureSampler => .combinedImageSampler
  | .inputRenderTarget => .inputAttachment
  | .inlineUniformData => .inlineUniformBlock
  | .accelerationStructure => .accelerationStructure
  | _ => .uniformBuffer

/-- Vulkan shader stage flags reachable from `to_vk_shader_stage`. -/
inductive VkShaderStage where
  | vertex
  | fragment
  | geometry
  | tessellationControl
  | tessellationEvaluation
  | compute
  | raygen
  | intersection
  | anyHit
  | closestHit
  | miss
  | callable
  | mesh
  | task
  deriving DecidableEq

/-- `DescriptorInfo` from the shader header. -/
structure DescriptorInfo where
  name : String
  size : Nat
  binding : Nat
  set : Nat
  descriptor_count : Nat
  type : VkDescriptorType
  stage : VkShaderStage
  deriving DecidableEq

/-- `PushConstantInfo` from the shader header. -/
structure PushConstantInfo where
  name : String
  offset : Nat
  size : Nat
  stage : VkShaderStage
  deriving DecidableEq

/-- One binding range of a parameter's type layout:
`getBindingRangeType(r)`, `getBindingRangeBindingCount(r)` and
`getBindingRangeLeafTypeLayout(r)` (null modelled as `none`). -/
structure BindingRange where
  binding_type : SlangBindingType
  count : Nat
  leaf : Option TypeLayout
  deriving DecidableEq

/-- A top-level shader parameter as seen by the descriptor extractors:
`getName()`, `getBindingIndex()`, `getBindingSpace()`, `getOffset()`, its full
type layout and its binding ranges. -/
structure ShaderParam where
  name : String
  binding_index : Nat
  binding_space : Nat
  offset : Nat
  type_layout : TypeLayout
  ranges : List BindingRange
  deriving DecidableEq

/-- The skip test of `extract_bindings`: varying inputs/outputs and push
constants are not descriptor bindings.  The C++ comparison is on the full
`BindingType` value, so the unflagged enumerators are compared. -/
def skipped_range (range : BindingRange) : Bool :=
  range.binding_type = { base := .varyingInput, isMutable := false } ∨
    range.binding_type = { base := .varyingOutput, isMutable := false } ∨
    range.binding_type = { base := .pushConstant, isMutable := false }

/-- The `DescriptorInfo` emitted for binding range `r` of a parameter. -/
def descriptor_of_range (name : String) (base set : Nat) (stage : VkShaderStage)
    (r : Nat) (range : BindingRange) : DescriptorInfo :=
  { name := name,
    size := match range.leaf with
            | some leaf => extract_size leaf
            | none => 0,
    binding := base + r,
    set := set,
    descriptor_count := range.count,
    type := to_vk_descriptor_type range.binding_type,
    stage := stage }

/-- The range loop of `extract_bindings`, carrying the running range index
`r`; skipped ranges still advance the index. -/
def extract_bindings_go (name : String) (base set : Nat) (stage : VkShaderStage)
    (r : Nat) : List BindingRange → List DescriptorInfo
  | [] => []
  | range :: rest =>
    if skipped_range range then
      extract_bindings_go name base set stage (r + 1) rest
    else
      descriptor_of_range name base set stage r range ::
        extract_bindings_go name base set stage (r + 1) rest

/-- `extract_bindings` from IFSController.cpp: an early return for parameters
with no binding ranges (push constants or varyings), otherwise the range
loop. -/
def extract_bindings (param : ShaderParam) (stage : VkShaderStage) : List DescriptorInfo :=
  if param.ranges.length = 0 then []
  else
    extract_bindings_go param.name param.binding_index param.binding_space stage 0
      param.ranges

/-- `extract_descriptors`: concatenate `extract_bindings` over every top-level
parameter in declaration order. -/
def extract_descriptors (params : List ShaderParam) (stage : VkShaderStage) :
    List DescriptorInfo :=
  (params.map (fun p => extract_bindings p stage)).flatten

/-- Whether a parameter has a push-constant binding range (the inner loop of
`extract_push_constants` returns at the first such range). -/
def has_push_constant_range (ranges : List BindingRange) : Bool :=
  ranges.any (fun r =>
    r.binding_type = { base := .pushConstant, isMutable := false })

/-- `extract_push_constants`: scan the parameters in order for the first one
with a push-constant binding range and build its `PushConstantInfo` from the
parameter's offset and recursively extracted size. -/
def extract_push_constants (params : List ShaderParam) (stage : VkShaderStage) :
    Option PushConstantInfo :=
  match params with
  | [] => none
  | p :: rest =>
    if has_push_constant_range p.ranges then
      some { name := p.name, offset := p.offset, size := extract_size p.type_layout,
             stage := stage }
    else extract_push_constants rest stage

theorem extract_bindings_go_eq (name : String) (base set : Nat) (stage : VkShaderStage)
    (ranges : List BindingRange) (r : Nat) :
    extract_bindings_go name base set stage r ranges =
      ((ranges.enumFrom r).filter (fun q => skipped_range q.2 = false)).map
        (fun q => descriptor_of_range name base set stage q.1 q.2) := by
  induction ranges generalizing r with
  | nil => rfl
  | cons range rest ih =>
    simp only [extract_bindings_go, List.enumFrom, List.filter_cons]
    by_cases hs : skipped_range range
    · simp [hs, ih (r + 1)]
    · simp [hs, ih (r + 1)]

theorem extract_bindings_go_lower_bound (name : String) (base set : Nat)
    (stage : VkShaderStage) (ranges : List BindingRange) (r : Nat) :
    ∀ d ∈ extract_bindings_go name base set stage r ranges, base + r ≤ d.binding := by
  induction ranges generalizing r with
  | nil => intro d hd; simp [extract_bindings_go] at hd
  | cons range rest ih =>
    intro d hd
    simp only [extract_bindings_go] at hd
    by_cases hs : skipped_range range
    · rw [if_pos hs] at hd
      have := ih (r + 1) d hd
      omega
    · rw [if_neg hs] at hd
      rcases List.mem_cons.mp hd with heq | hmem


      · subst heq
        simp [descriptor_of_range]
      · have := ih (r + 1) d hmem
        omega

theorem extract_bindings_go_increasing (name : String) (base set : Nat)
    (stage : VkShaderStage) (ranges : List BindingRange) (r : Nat) :
    List.Pairwise (fun a b => a.binding < b.binding)
      (extract_bindings_go name base set stage r ranges) := by
  induction ranges generalizing r with
  | nil => exact List.Pairwise.nil
  | cons range rest ih =>
    simp only [extract_bindings_go]
    by_cases hs : skipped_range range
    · rw [if_pos hs]; exact ih (r + 1)
    · rw [if_neg hs]
      refine List.Pairwise.cons ?_ (ih (r + 1))
      intro d hd
      have := extract_bindings_go_lower_bound name base set stage rest (r + 1) d hd
      simp only [descriptor_of_range]
      omega

/-- C10: every `DescriptorInfo` emitted for a parameter corresponds to one
non-skipped binding range, and its binding index is the parameter's base
binding index plus that range's ordinal among ALL of the parameter's ranges
(ordinals advance across ranges skipped as varyings or push constants); the
emitted list therefore carries strictly increasing binding indices, all at
least the base, and every entry shares the parameter's set index and name. -/
theorem C10_binding_indices (param : ShaderParam) (stage : VkShaderStage) :
    extract_bindings param stage =
      ((param.ranges.enumFrom 0).filter (fun q => skipped_range q.2 = false)).map
        (fun q => descriptor_of_range param.name param.binding_index
          param.binding_space stage q.1 q.2) ∧
    List.Pairwise (fun a b => a.binding < b.binding) (extract_bindings param stage) := by
  constructor
  · unfold extract_bindings
    by_cases h : param.ranges.length = 0
    · rw [if_pos h]
      rw [List.length_eq_zero] at h
      rw [h]
      rfl
    · rw [if_neg h]
      exact extract_bindings_go_eq _ _ _ _ _ 0
  · unfold extract_bindings
    by_cases h : param.ranges.length = 0
    · rw [if_pos h]; exact List.Pairwise.nil
    · rw [if_neg h]
      exact extract_bindings_go_increasing _ _ _ _ _ 0

-- ============================================================================
-- Shader compilation pipeline (check_diagnostics, load/link/codegen,
-- make_shader_details, create_shader) and the Shader handle
-- ============================================================================

/-- `SlangStage` values; `otherStage` covers every enumerator outside the
named ones (handled by `default` branches in the code). -/
inductive SlangStage where
  | vertex
  | fragment
  | geometry
  | hull
  | domain
  | compute
  | rayGeneration
  | intersection
  | anyHit
  | closestHit
  | miss
  | callable
  | mesh
  | amplification
  | otherStage (code : Nat)
  deriving DecidableEq

/-- `to_vk_shader_stage`: total mapping from Slang stages to Vulkan stage
flags; unrecognized values default to vertex with a logged warning. -/
def to_vk_shader_stage : SlangStage → VkShaderStage
  | .vertex => .vertex
  | .fragment => .fragment
  | .geometry => .geometry
  | .hull => .tessellationControl
  | .domain => .tessellationEvaluation
  | .compute => .compute
  | .rayGeneration => .raygen
  | .intersection => .intersection
  | .anyHit => .anyHit
  | .closestHit => .closestHit
  | .miss => .miss
  | .callable => .callable
  | .mesh => .mesh
  | .amplification => .task
  | .otherStage _ => .vertex

/-- `check_diagnostics`: the Slang diagnostics blob (its text; a null or
empty blob is the empty string) is turned into an error string whenever it is
non-empty, with no distinction between warnings and errors. -/
def check_diagnostics (diagnostics : String) : Option String :=
  if diagnostics = "" then none else some diagnostics

/-- The data the Slang and Vulkan APIs hand to one `create_shader` call:
diagnostic blobs of each compiler step, the module/entry lookups, the entry
point's reflection data (`entry_params`/`entry_result`, consumed by the
stage-details constructors through the interface and vertex-input
extractors), the top-level shader parameters, and the native module-creation
outcome (`module_create_ok` is `vk::Result::eSuccess`; `module_value` is the
handle value the driver returned, `none` for a null handle). -/
structure CompileEnv where
  name : String
  entry_point : String
  device : Nat
  load_diagnostics : String
  module_ok : Bool
  entry_found : Bool
  composite_diagnostics : String
  link_diagnostics : String
  codegen_diagnostics : String
  entry_count : Nat
  entry_stage : SlangStage
  entry_params : List EntryParam
  entry_result : Option VarLayout
  params : List ShaderParam
  module_create_ok : Bool
  module_value : Option Nat
  deriving DecidableEq

/-- `load_shader_program`: fail on non-empty load diagnostics, then on a null
module, then on a missing entry point, then on non-empty composition
diagnostics; otherwise the composed program. -/
def load_shader_program (env : CompileEnv) : Except String Unit :=
  match check_diagnostics env.load_diagnostics with
  | some e => .error e
  | none =>
    if env.module_ok = false then
      .error ("Failed to load module " ++ env.name)
    else if env.entry_found = false then
      .error ("Entry point " ++ env.entry_point ++ " not found")
    else
      match check_diagnostics env.composite_diagnostics with
      | some e => .error e
      | none => .ok ()

/-- `link_program`: fail exactly on non-empty link diagnostics. -/
def link_program (env : CompileEnv) : Except String Unit :=
  match check_diagnostics env.link_diagnostics with
  | some e => .error e
  | none => .ok ()

/-- `get_spirv_code`: fail exactly on non-empty codegen diagnostics. -/
def get_spirv_code (env : CompileEnv) : Except String Unit :=
  match check_diagnostics env.codegen_diagnostics with
  | some e => .error e
  | none => .ok ()

/-- `extract_shader_stage`: vertex (with a warning) when there is no entry
point, otherwise the translated stage of entry point 0. -/
def extract_shader_stage (env : CompileEnv) : VkShaderStage :=
  if env.entry_count = 0 then .vertex else to_vk_shader_stage env.entry_stage

/-- Outcome of a call whose C++ implementation can either return a
`std::expected` value (`ok`/`err`) or let a thrown exception escape
(`thrown`). -/
inductive CallResult (α : Type) where
  | ok (value : α)
  | err (message : String)
  | thrown (message : String)
  deriving DecidableEq

/-- Default-constructed `VertexDetails` (as before reflection fills it). -/
def emptyVertexDetails : VertexDetails :=
  { inputs := [], bindings := [], outputs := [] }

/-- Default-constructed tessellation control details. -/
def emptyTessControlDetails : TessellationControlDetails :=
  { inputs := [], outputs := [], output_vertices := 0 }

/-- Default-constructed tessellation evaluation details. -/
def emptyTessEvalDetails : TessellationEvaluationDetails :=
  { inputs := [], outputs := [], domain := .triangles, spacing := .equal,
    clockwise := false }

/-- Default-constructed geometry details. -/
def emptyGeometryDetails : GeometryDetails :=
  { inputs := [], outputs := [], input_primitive := .triangleList,
    output_primitive := .triangleStrip, max_output_vertices := 0, invocations := 1 }

/-- Default-constructed fragment details. -/
def emptyFragmentDetails : FragmentDetails :=
  { inputs := [], outputs := [], writes_depth := false }

/-- Default-constructed compute details. -/
def emptyComputeDetails : ComputeDetails :=
  { local_size_x := 1, local_size_y := 1, local_size_z := 1 }

/-- The entry-point reflection the stage-details constructors walk. -/
def env_entry (env : CompileEnv) : EntryPointReflection :=
  { params := env.entry_params, result := env.entry_result }

/-- `VertexDetails::VertexDetails(linked)`: empty details when there is no
entry point; otherwise `extract_vertex_inputs` fills inputs and bindings —
and can throw `std::runtime_error` on a nameless input struct, an abort path
modelled by the error case — then `extract_outputs` fills the outputs. -/
def construct_vertex_details (env : CompileEnv) : Except String VertexDetails :=
  if env.entry_count = 0 then .ok emptyVertexDetails
  else
    match extract_vertex_inputs env.entry_params with
    | .error e => .error e
    | .ok (attrs, binds) =>
      .ok { inputs := attrs, bindings := binds,
            outputs := extract_outputs (env_entry env) }

/-- `TessellationControlDetails` constructor: interface extraction plus the
default output-vertex count (not available through reflection). -/
def construct_tess_control_details (env : CompileEnv) : TessellationControlDetails :=
  if env.entry_count = 0 then emptyTessControlDetails
  else
    { inputs := extract_inputs env.entry_params,
      outputs := extract_outputs (env_entry env),
      output_vertices := 0 }

/-- `TessellationEvaluationDetails` constructor: interface extraction plus
default domain/spacing/winding. -/
def construct_tess_eval_details (env : CompileEnv) : TessellationEvaluationDetails :=
  if env.entry_count = 0 then emptyTessEvalDetails
  else
    { inputs := extract_inputs env.entry_params,
      outputs := extract_outputs (env_entry env),
      domain := .triangles, spacing := .equal, clockwise := false }

/-- `GeometryDetails` constructor: interface extraction plus default
topologies, vertex count and invocations. -/
def construct_geometry_details (env : CompileEnv) : GeometryDetails :=
  if env.entry_count = 0 then emptyGeometryDetails
  else
    { inputs := extract_inputs env.entry_params,
      outputs := extract_outputs (env_entry env),
      input_primitive := .triangleList, output_primitive := .triangleStrip,
      max_output_vertices := 0, invocations := 1 }

/-- `FragmentDetails` constructor: interface extraction plus the default
depth-write flag. -/
def construct_fragment_details (env : CompileEnv) : FragmentDetails :=
  if env.entry_count = 0 then emptyFragmentDetails
  else
    { inputs := extract_inputs env.entry_params,
      outputs := extract_outputs (env_entry env),
      writes_depth := false }

/-- `ComputeDetails` constructor: local size defaults to 1x1x1 in every
case. -/
def construct_compute_details (_env : CompileEnv) : ComputeDetails :=
  emptyComputeDetails

/-- `make_shader_details`: dispatch on the entry point's stage to the matching
stage-details constructor; a missing entry point or a stage outside the six
known kinds raises `std::invalid_argument`, and the vertex constructor can
raise `std::runtime_error` for a nameless input struct (thrown exceptions,
not returned errors). -/
def make_shader_details (env : CompileEnv) : CallResult ShaderDetails :=
  if env.entry_count = 0 then .thrown "No entry point found"
  else
    match env.entry_stage with
    | .vertex =>
      match construct_vertex_details env with
      | .error e => .thrown e
      | .ok d => .ok (.vertex d)
    | .hull => .ok (.tessControl (construct_tess_control_details env))
    | .domain => .ok (.tessEval (construct_tess_eval_details env))
    | .geometry => .ok (.geometry (construct_geometry_details env))
    | .fragment => .ok (.fragment (construct_fragment_details env))
    | .compute => .ok (.compute (construct_compute_details env))
    | _ => .thrown "Unsupported shader stage"

/-- The `Shader` class: owner of the native module handle plus the extracted
reflection data.  A `none` module is the null handle. -/
structure Shader where
  device : Nat
  shader_module : Option Nat
  stage : VkShaderStage
  details : ShaderDetails
  descriptor_infos : List DescriptorInfo
  push_constant_info : Option PushConstantInfo
  entry_point : String
  deriving DecidableEq

/-- `create_shader_module`: the Vulkan call's returned handle is passed on
unconditionally; a failed `vk::Result` is only logged (`return
module_res.value` regardless). -/
def create_shader_module (env : CompileEnv) : Option Nat :=
  env.module_value

/-- Whether a Slang stage is one of the six kinds `make_shader_details`
accepts. -/
def supported_stage : SlangStage → Bool
  | .vertex | .hull | .domain | .geometry | .fragment | .compute => true
  | _ => false

/-- `Shader::create_shader`: load+link, codegen, stage extraction, stage
details, push constants, descriptors, native module creation, in that order.
Step errors are returned; reflection-dispatch failures propagate as thrown
exceptions; the native module creation contributes whatever handle the driver
returned. -/
def create_shader (env : CompileEnv) : CallResult Shader :=
  match load_shader_program env with
  | .error e => .err e
  | .ok _ =>
    match link_program env with
    | .error e => .err e
    | .ok _ =>
      match get_spirv_code env with
      | .error e => .err e
      | .ok _ =>
        let stage := extract_shader_stage env
        match make_shader_details env with
        | .err e => .err e
        | .thrown e => .thrown e
        | .ok details =>
          let push_constants := extract_push_constants env.params stage
          let descriptors := extract_descriptors env.params stage
          let shader_module := create_shader_module env
          .ok { device := env.device, shader_module := shader_module, stage := stage,
                details := details, descriptor_infos := descriptors,
                push_constant_info := push_constants, entry_point := env.entry_point }

/-- A benign environment: every compiler step succeeds with empty
diagnostics, the entry point is a vertex shader with no parameters, and
module creation succeeds. -/
def benignEnv : CompileEnv :=
  { name := "m", entry_point := "main", device := 0,
    load_diagnostics := "", module_ok := true, entry_found := true,
    composite_diagnostics := "", link_diagnostics := "", codegen_diagnostics := "",
    entry_count := 1, entry_stage := .vertex,
    entry_params := [], entry_result := none,
    params := [], module_create_ok := true, module_value := some 1 }

theorem make_shader_details_ne_err (env : CompileEnv) (e : String) :
    make_shader_details env ≠ CallResult.err e := by
  unfold make_shader_details
  by_cases h : env.entry_count = 0
  · simp [h]
  · simp only [h, if_false]
    cases env.entry_stage <;> try simp
    cases construct_vertex_details env <;> simp

/-- C5 counterexample environment: the module loads (non-null) and the entry
point is found, but the load step's diagnostics blob carries warning text. -/
def warnEnv : CompileEnv :=
  { benignEnv with load_diagnostics := "warning: unused variable" }

/-- C5 counterexample: on an otherwise fully successful load (module found,
entry point found), warning text in the diagnostics blob makes
`load_shader_program` fail with that text — `check_diagnostics` cannot tell
warnings from errors, so a warning does cause the step to fail. -/
theorem C5_counterexample_warning_fails_load :
    warnEnv.module_ok = true ∧ warnEnv.entry_found = true ∧
      load_shader_program warnEnv = .error "warning: unused variable" := by
  decide

/-- C5 (amended): a load/link/codegen step fails exactly when its diagnostics
blob is non-empty (or, for loading, when the module is null or the entry
point missing), and a non-empty blob produces that text as the error —
regardless of whether the compiler operation itself succeeded.  Diagnostic
text, warnings included, always fails the step; only empty diagnostics allow
success. -/
theorem C5_nonempty_diagnostics_fail (env : CompileEnv) :
    (env.load_diagnostics ≠ "" →
      load_shader_program env = .error env.load_diagnostics) ∧
    (load_shader_program env = .ok () ↔
      env.load_diagnostics = "" ∧ env.module_ok = true ∧ env.entry_found = true ∧
        env.composite_diagnostics = "") ∧
    (env.link_diagnostics ≠ "" → link_program env = .error env.link_diagnostics) ∧
    (link_program env = .ok () ↔ env.link_diagnostics = "") ∧
    (env.codegen_diagnostics ≠ "" →
      get_spirv_code env = .error env.codegen_diagnostics) ∧
    (get_spirv_code env = .ok () ↔ env.codegen_diagnostics = "") := by
  refine ⟨?_, ?_, ?_, ?_, ?_, ?_⟩
  · intro h
    simp [load_shader_program, check_diagnostics, h]
  · constructor
    · intro h
      by_cases hld : env.load_diagnostics = "" <;>
        simp only [load_shader_program, check_diagnostics, hld, if_true, if_false] at h
      · by_cases hmod : env.module_ok = false
        · simp [hmod] at h
        · rw [if_neg hmod] at h
          by_cases hent : env.entry_found = false
          · simp [hent] at h
          · rw [if_neg hent] at h
            by_cases hcd : env.composite_diagnostics = ""
            · simp only [Bool.not_eq_false] at hmod hent
              exact ⟨hld, hmod, hent, hcd⟩
            · simp [hcd] at h
      · simp at h
    · rintro ⟨h1, h2, h3, h4⟩
      simp [load_shader_program, check_diagnostics, h1, h2, h3, h4]
  · intro h
    simp [link_program, check_diagnostics, h]
  · constructor
    · intro h
      by_cases hld : env.link_diagnostics = ""
      · exact hld
      · simp [link_program, check_diagnostics, hld] at h
    · intro h
      simp [link_program, check_diagnostics, h]
  · intro h
    simp [get_spirv_code, check_diagnostics, h]
  · constructor
    · intro h
      by_cases hld : env.codegen_diagnostics = ""
      · exact hld
      · simp [get_spirv_code, check_diagnostics, hld] at h
    · intro h
      simp [get_spirv_code, check_diagnostics, h]

/-- Environment whose link step emits warning text. -/
def linkWarnEnv : CompileEnv :=
  { benignEnv with link_diagnostics := "warning: deprecated feature" }

/-- C5 witness: at the concrete environment whose link diagnostics blob holds
warning text, linking fails with exactly that text. -/
theorem C5_nonempty_diagnostics_fail_witness :
    linkWarnEnv.link_diagnostics ≠ "" ∧
      link_program linkWarnEnv = .error "warning: deprecated feature" :=
  ⟨by decide, (C5_nonempty_diagnostics_fail linkWarnEnv).2.2.1 (by decide)⟩

/-- C3 counterexample environment: every compiler step succeeds but the
native module creation reports failure and returns a null handle. -/
def moduleFailEnv : CompileEnv :=
  { benignEnv with module_create_ok := false, module_value := none }

/-- C3 counterexample: when the final native module creation fails
(`vk::Result` not success, null handle returned), `create_shader` does NOT
abort — the failure is only logged and a Shader handle holding the null
module is still returned to the caller. -/
theorem C3_counterexample_module_failure_not_aborted :
    moduleFailEnv.module_create_ok = false ∧
      create_shader moduleFailEnv =
        CallResult.ok { device := 0, shader_module := none, stage := .vertex,
                        details := .vertex emptyVertexDetails, descriptor_infos := [],
                        push_constant_info := none, entry_point := "main" } := by
  decide

/-- C3 (amended): `create_shader` runs loading, linking and binary codegen in
that fixed order and aborts with the failing step's exact error; with those
steps successful, a failing vertex-input extraction inside StageDetails
construction (the nameless-input-struct reflection error) also aborts the
call, as a thrown exception carrying that error; the call succeeds precisely
when the entry point exists with one of the six supported stages and, for a
vertex entry point, its input extraction succeeds; and the outcome of the
final native module-creation step never affects the result — a
module-creation failure is logged only, and a handle is still returned. -/
theorem C3_create_shader_pipeline (env : CompileEnv) :
    (∀ e, load_shader_program env = .error e → create_shader env = CallResult.err e) ∧
    (∀ e, load_shader_program env = .ok () → link_program env = .error e →
      create_shader env = CallResult.err e) ∧
    (∀ e, load_shader_program env = .ok () → link_program env = .ok () →
      get_spirv_code env = .error e → create_shader env = CallResult.err e) ∧
    (∀ e, load_shader_program env = .ok () → link_program env = .ok () →
      get_spirv_code env = .ok () → env.entry_count ≠ 0 →
      env.entry_stage = SlangStage.vertex →
      extract_vertex_inputs env.entry_params = .error e →
      create_shader env = CallResult.thrown e) ∧
    (∀ b, create_shader { env with module_create_ok := b } = create_shader env) ∧
    ((∃ s, create_shader env = CallResult.ok s) ↔
      load_shader_program env = .ok () ∧ link_program env = .ok () ∧
        get_spirv_code env = .ok () ∧ env.entry_count ≠ 0 ∧
        supported_stage env.entry_stage = true ∧
        (env.entry_stage = SlangStage.vertex →
          ∃ r, extract_vertex_inputs env.entry_params = .ok r)) := by
  refine ⟨?_, ?_, ?_, ?_, ?_, ?_⟩
  · intro e h
    simp [create_shader, h]
  · intro e h1 h2
    simp [create_shader, h1, h2]
  · intro e h1 h2 h3
    simp [create_shader, h1, h2, h3]
  · intro e h1 h2 h3 hec hv hx
    simp [create_shader, h1, h2, h3, make_shader_details, hec, hv,
      construct_vertex_details, hx]
  · intro b
    cases env
    rfl
  · constructor
    · rintro ⟨s, hs⟩
      cases hload : load_shader_program env with
      | error e => simp [create_shader, hload] at hs
      | ok u =>
        cases u
        cases hlink : link_program env with
        | error e => simp [create_shader, hload, hlink] at hs
        | ok u =>
          cases u
          cases hspirv : get_spirv_code env with
          | error e => simp [create_shader, hload, hlink, hspirv] at hs
          | ok u =>
            cases u
            by_cases hec : env.entry_count = 0
            · exfalso
              simp [create_shader, hload, hlink, hspirv,
                make_shader_details, hec] at hs
            · refine ⟨rfl, rfl, rfl, hec, ?_, ?_⟩
              · cases hstage : env.entry_stage <;>
                  simp_all [create_shader, make_shader_details,
                    supported_stage, hec]
              · intro hv
                cases hcv : construct_vertex_details env with
                | error e =>
                  exfalso
                  simp [create_shader, hload, hlink, hspirv,
                    make_shader_details, hec, hv, hcv] at hs
                | ok d =>
                  unfold construct_vertex_details at hcv
                  rw [if_neg hec] at hcv
                  cases hx : extract_vertex_inputs env.entry_params with
                  | error e => rw [hx] at hcv; simp at hcv
                  | ok r => exact ⟨r, rfl⟩
    · rintro ⟨h1, h2, h3, h4, h5, h6⟩
      cases hstage : env.entry_stage <;> rw [hstage] at h5 <;>
        try simp [supported_stage] at h5
      · obtain ⟨r, hr⟩ := h6 hstage
        obtain ⟨attrs, binds⟩ := r
        simp [create_shader, h1, h2, h3, make_shader_details, h4, hstage,
          construct_vertex_details, hr]
      · simp [create_shader, h1, h2, h3, make_shader_details, h4, hstage]
      · simp [create_shader, h1, h2, h3, make_shader_details, h4, hstage]
      · simp [create_shader, h1, h2, h3, make_shader_details, h4, hstage]
      · simp [create_shader, h1, h2, h3, make_shader_details, h4, hstage]
      · simp [create_shader, h1, h2, h3, make_shader_details, h4, hstage]

/-- Environment whose load step carries compiler error text. -/
def loadErrEnv : CompileEnv :=
  { benignEnv with load_diagnostics := "error: cannot open module" }

/-- Environment of a vertex entry point whose input struct has no resolvable
type name — the fatal reflection inconsistency `extract_vertex_inputs` throws
on. -/
def namelessVertexEnv : CompileEnv :=
  { benignEnv with
    entry_params := [{ name := "input", type_name := none,
                       layout := VarLayout.structLayout [] }] }

/-- C3 witness: at the concrete environment whose load step fails, the whole
`create_shader` call returns exactly the load error; and at the concrete
vertex environment with a nameless input struct, the extraction error aborts
the call as a thrown exception. -/
theorem C3_create_shader_pipeline_witness :
    load_shader_program loadErrEnv = .error "error: cannot open module" ∧
      create_shader loadErrEnv = CallResult.err "error: cannot open module" ∧
      extract_vertex_inputs namelessVertexEnv.entry_params =
        .error "Vertex input struct has no name" ∧
      create_shader namelessVertexEnv =
        CallResult.thrown "Vertex input struct has no name" :=
  ⟨by decide,
   (C3_create_shader_pipeline loadErrEnv).1 "error: cannot open module" (by decide),
   by decide,
   (C3_create_shader_pipeline namelessVertexEnv).2.2.2.1
     "Vertex input struct has no name"
     (by decide) (by decide) (by decide) (by decide) (by decide) (by decide)⟩

/-- C4 counterexample environment: everything succeeds but the entry point's
stage is a ray-generation stage, outside the six known kinds. -/
def unsupportedStageEnv : CompileEnv :=
  { benignEnv with entry_stage := .rayGeneration }

/-- C4 counterexample: for an entry point whose stage is outside the six
known kinds, `create_shader` does not return an error value — the
`std::invalid_argument` thrown by `make_shader_details` escapes the call
(modelled by the `thrown` channel, distinct from the returned `err`
channel). -/
theorem C4_counterexample_unsupported_stage_throws :
    create_shader unsupportedStageEnv = CallResult.thrown "Unsupported shader stage" := by
  decide

/-- C4 (amended): errors of the load/link/codegen steps are returned in the
result channel unchanged — every returned error is exactly the first failing
step's error — but reflection-dispatch failures are NOT returned as result
values: a missing entry point or an entry-point stage outside the six known
kinds makes a thrown exception escape `create_shader` instead of producing an
error value. -/
theorem C4_error_channels (env : CompileEnv) :
    (load_shader_program env = .ok () → link_program env = .ok () →
      get_spirv_code env = .ok () → env.entry_count = 0 →
      create_shader env = CallResult.thrown "No entry point found") ∧
    (load_shader_program env = .ok () → link_program env = .ok () →
      get_spirv_code env = .ok () → env.entry_count ≠ 0 →
      supported_stage env.entry_stage = false →
      create_shader env = CallResult.thrown "Unsupported shader stage") ∧
    (∀ e, create_shader env = CallResult.err e →
      load_shader_program env = .error e ∨
        (load_shader_program env = .ok () ∧ link_program env = .error e) ∨
        (load_shader_program env = .ok () ∧ link_program env = .ok () ∧
          get_spirv_code env = .error e)) := by
  refine ⟨?_, ?_, ?_⟩
  · intro h1 h2 h3 hec
    simp [create_shader, h1, h2, h3, make_shader_details, hec]
  · intro h1 h2 h3 hec hsup
    cases hstage : env.entry_stage <;> rw [hstage] at hsup <;>
      simp_all [create_shader, make_shader_details, supported_stage]
  · intro e he
    cases hload : load_shader_program env with
    | error e2 =>
      left
      simp [create_shader, hload] at he
      rw [he]
    | ok u =>
      cases u
      cases hlink : link_program env with
      | error e2 =>
        right; left
        refine ⟨rfl, ?_⟩
        simp [create_shader, hload, hlink] at he
        rw [he]
      | ok u =>
        cases u
        cases hspirv : get_spirv_code env with
        | error e2 =>
          right; right
          refine ⟨rfl, rfl, ?_⟩
          simp [create_shader, hload, hlink, hspirv] at he
          rw [he]
        | ok u =>
          cases u
          exfalso
          cases hmk : make_shader_details env with
          | ok d => simp [create_shader, hload, hlink, hspirv, hmk] at he
          | thrown m => simp [create_shader, hload, hlink, hspirv, hmk] at he
          | err m => exact make_shader_details_ne_err env m hmk

/-- Environment with no entry point in the linked program's layout. -/
def noEntryEnv : CompileEnv :=
  { benignEnv with entry_count := 0 }

/-- C4 witness: at the concrete environment with no entry point, the
reflection-dispatch failure escapes as a thrown exception. -/
theorem C4_error_channels_witness :
    create_shader noEntryEnv = CallResult.thrown "No entry point found" :=
  (C4_error_channels noEntryEnv).1 (by decide) (by decide) (by decide) (by decide)

-- ============================================================================
-- Shader handle ownership (destructor, move constructor, move assignment)
-- ============================================================================

/-- The native modules destroyed by `Shader::~Shader`: the owned module when
it is non-null, nothing otherwise. -/
def Shader.destructor_events (s : Shader) : List Nat :=
  match s.shader_module with
  | some m => [m]
  | none => []

/-- `Shader::Shader(Shader&&)`: the new handle takes every field, with the
module obtained by `std::exchange(other.m_shader_module, nullptr)`; returns
(new handle, moved-from source).  No module is destroyed. -/
def Shader.move_ctor (s : Shader) : Shader × Shader :=
  (s, { s with shader_module := none })

/-- `Shader::operator=(Shader&&)` for distinct objects: first destroy the
target's currently owned module if non-null, then take every field from the
source, exchanging its module for null; returns (destroyed modules, new
target, moved-from source). -/
def Shader.move_assign (tgt src : Shader) : List Nat × Shader × Shader :=
  (Shader.destructor_events tgt, src, { src with shader_module := none })

/-- `Shader::operator=(Shader&&)` on self-assignment (`this == &other`): the
identity check makes it a no-op with no destruction. -/
def Shader.move_assign_self (s : Shader) : List Nat × Shader :=
  ([], s)

/-- C9: a Shader handle releases its native module exactly once.  Moving from
a handle leaves the source with a null module and a no-op destructor while the
new handle owns the module; destroying both after a move releases the module
exactly once; a null-module handle's destructor destroys nothing; and move
assignment first releases the target's previously owned module, after which
destroying the new target and the moved-from source releases the source's
module exactly once — the combined release events are the target's old module
followed by the source's module, each once. -/
theorem C9_module_released_exactly_once (s tgt : Shader) (m : Nat)
    (h : s.shader_module = some m) :
    (Shader.move_ctor s).2.shader_module = none ∧
    Shader.destructor_events (Shader.move_ctor s).2 = [] ∧
    (Shader.move_ctor s).1.shader_module = some m ∧
    Shader.destructor_events (Shader.move_ctor s).1 ++
      Shader.destructor_events (Shader.move_ctor s).2 = [m] ∧
    (∀ t : Shader, t.shader_module = none → Shader.destructor_events t = []) ∧
    (Shader.move_assign tgt s).1 = Shader.destructor_events tgt ∧
    (Shader.move_assign tgt s).2.1.shader_module = some m ∧
    (Shader.move_assign tgt s).2.2.shader_module = none ∧
    (Shader.move_assign tgt s).1 ++
        Shader.destructor_events (Shader.move_assign tgt s).2.1 ++
        Shader.destructor_events (Shader.move_assign tgt s).2.2 =
      Shader.destructor_events tgt ++ [m] ∧
    (Shader.move_assign_self s).1 = [] := by
  refine ⟨rfl, ?_, h, ?_, ?_, rfl, h, rfl, ?_, rfl⟩
  · simp [Shader.move_ctor, Shader.destructor_events]
  · simp [Shader.move_ctor, Shader.destructor_events, h]
  · intro t ht
    simp [Shader.destructor_events, ht]
  · simp [Shader.move_assign, Shader.destructor_events, h]

/-- A concrete shader owning native module 7. -/
def shaderSeven : Shader :=
  { device := 0, shader_module := some 7, stage := .vertex,
    details := .vertex emptyVertexDetails, descriptor_infos := [],
    push_constant_info := none, entry_point := "main" }

/-- A concrete shader owning native module 3, the move-assignment target. -/
def shaderThree : Shader :=
  { device := 0, shader_module := some 3, stage := .fragment,
    details := .fragment emptyFragmentDetails, descriptor_infos := [],
    push_constant_info := none, entry_point := "main" }

/-- C9 witness: moving out of the concrete handle owning module 7 and then
destroying both handles releases module 7 exactly once, and move-assigning it
over the handle owning module 3 releases [3, 7]. -/
theorem C9_module_released_exactly_once_witness :
    shaderSeven.shader_module = some 7 ∧
    Shader.destructor_events (Shader.move_ctor shaderSeven).1 ++
        Shader.destructor_events (Shader.move_ctor shaderSeven).2 = [7] ∧
    (Shader.move_assign shaderThree shaderSeven).1 ++
        Shader.destructor_events (Shader.move_assign shaderThree shaderSeven).2.1 ++
        Shader.destructor_events (Shader.move_assign shaderThree shaderSeven).2.2 =
      [3, 7] := by
  have h := C9_module_released_exactly_once shaderSeven shaderThree 7 (by decide)
  exact ⟨by decide, h.2.2.2.1, by
    have := h.2.2.2.2.2.2.2.2.1
    simpa [Shader.destructor_events, shaderThree] using this⟩

-- ============================================================================
-- Concrete witnesses
-- ============================================================================

/-- C1 witness: at concrete details, a fragment stage followed by a vertex
stage is rejected by the transition gate. -/
theorem C1_matches_is_gated_interface_match_witness :
    ShaderDetails.matchesNext (ShaderDetails.fragment emptyFragmentDetails)
      (ShaderDetails.vertex emptyVertexDetails) = false :=
  (C1_matches_is_gated_interface_match (ShaderDetails.fragment emptyFragmentDetails)
    (ShaderDetails.vertex emptyVertexDetails)).trans rfl

/-- C2 witness: at the concrete singleton interface, matching succeeds because
the (single, hence last) producer output at location 0 has the consumer's
format. -/
theorem C2_interfaces_match_iff_last_output_witness :
    interfaces_match [dupX] [dupX] = true :=
  (C2_interfaces_match_iff_last_output [dupX] [dupX]).mpr (by
    intro input hmem
    have hx : input = dupX := by simpa using hmem
    subst hx
    exact ⟨dupX, by decide, rfl⟩)

/-- A field bound to the reserved system-value semantic. -/
def svPositionField : FieldReflection :=
  { name := "position", semantic := some "SV_Position", binding_index := 0,
    field_type := { scalar := .float32, element_count := 4 } }

/-- An ordinary user-facing field. -/
def normalField : FieldReflection :=
  { name := "normal", semantic := none, binding_index := 0,
    field_type := { scalar := .float32, element_count := 3 } }

/-- C8 witness: at a concrete struct whose first field carries the reserved
system-value semantic, only the ordinary field survives extraction. -/
theorem C8_system_values_filtered_witness :
    extract_variables [svPositionField, normalField] =
      [{ name := "normal", location := 0, format := .r32g32b32Sfloat }] := by
  rw [(C8_system_values_filtered [svPositionField, normalField] []
    { params := [], result := none }).1]
  decide

/-- A varying-input binding range (skipped by descriptor extraction). -/
def varyingRange : BindingRange :=
  { binding_type := { base := .varyingInput, isMutable := false }, count := 1,
    leaf := none }

/-- A constant-buffer binding range. -/
def uniformRange : BindingRange :=
  { binding_type := { base := .constantBuffer, isMutable := false }, count := 1,
    leaf := some (.leaf 192) }

/-- A push-constant binding range (skipped by descriptor extraction). -/
def pushRange : BindingRange :=
  { binding_type := { base := .pushConstant, isMutable := false }, count := 1,
    leaf := some (.leaf 80) }

/-- A raw-buffer binding range. -/
def storageRange : BindingRange :=
  { binding_type := { base := .rawBuffer, isMutable := false }, count := 1,
    leaf := some (.leaf 64) }

/-- A parameter with base binding 5 whose ranges at ordinals 0 and 2 are
skipped as varying and push-constant. -/
def paramWithSkips : ShaderParam :=
  { name := "material", binding_index := 5, binding_space := 2, offset := 0,
    type_layout := .leaf 32,
    ranges := [varyingRange, uniformRange, pushRange, storageRange] }

/-- C10 witness: at the concrete parameter with base binding 5 and skipped
ranges at ordinals 0 and 2, the emitted descriptors carry bindings 5+1 and
5+3. -/
theorem C10_binding_indices_witness :
    (extract_bindings paramWithSkips VkShaderStage.fragment).map
      (fun d => d.binding) = [6, 8] := by
  rw [(C10_binding_indices paramWithSkips VkShaderStage.fragment).1]
  decide

end IFS
